import Mathlib

/-!
Verification model of the linux-control agent (src/client/main.py, class
WSClient).  The agent holds a WebSocket connection, reads JSON frames,
dispatches queries and commands to OS backends (psutil, dbus, pulsectl,
plocate, cv2) and writes one textual response per query/command frame.

The embedding translates the Python code shallowly:

* Python strings are `String`; operations that the kernel cannot reduce
  (`String.toLower`, `String.trim`, ...) are re-implemented structurally over
  `List Char` so that every theorem below can be settled by `decide`.
  The re-implementations cover the ASCII fragment of the Unicode behaviour of
  `str.lower` / `str.strip`; every string this program compares against is
  ASCII.
* Python floats are modelled exactly: a value is an unnormalised fraction
  `Frac`, and `doubleRound` rounds a true rational to the nearest IEEE-754
  binary64 value (53 significant bits, ties to even, normal range -- every
  float appearing in this program is normal).  `format1f` is the
  correctly-rounded `"%.1f"` formatting that CPython performs on a double.
* The external world (psutil, dbus, pulsectl, plocate sockets) is an oracle
  `Backend` record; side effects requested by command handlers are recorded
  as an explicit `Effect` list instead of being performed.
* The connection lifecycle (`WSClient.connect`, `WSClient.run`,
  `WSClient.keep_alive`) becomes a state machine over `ClientState`; one
  iteration of the read loop is `runStep`, whose outcome says whether the
  loop continues, breaks, or dies on an uncaught exception.
-/

namespace LinuxControl

/-! Structural string helpers mirroring the Python string operations used by
the client.  They operate on `List Char` so the kernel can evaluate them. -/

/-- Model of Python `str.lower` restricted to ASCII (maps only the letters
A-Z; every name the dispatcher compares is ASCII). -/
def pyLower (s : String) : String := ⟨s.data.map Char.toLower⟩

/-- Model of Python `str.strip` with no argument: drop leading and trailing
whitespace.  `Char.isWhitespace` covers space, tab, newline and carriage
return, the whitespace this protocol can carry. -/
def pyStrip (s : String) : String :=
  ⟨((s.data.dropWhile Char.isWhitespace).reverse.dropWhile Char.isWhitespace).reverse⟩

/-- Is the first list a prefix of the second? -/
def isPrefixChars : List Char → List Char → Bool
  | [], _ => true
  | _ :: _, [] => false
  | a :: as, b :: bs => a == b && isPrefixChars as bs

/-- Contiguous-substring test on character lists: the empty needle matches
everything, matching Python membership on strings. -/
def containsChars (needle : List Char) : List Char → Bool
  | [] => needle.isEmpty
  | c :: t => isPrefixChars needle (c :: t) || containsChars needle t

/-- Model of the Python expression `needle in hay` on two strings:
a contiguous-substring test. -/
def pyIn (needle hay : String) : Bool := containsChars needle.data hay.data

/-- Digit run accepted by Python `int(str)` after the optional sign: decimal
digits with single underscores allowed strictly between digits.  The flag
records whether the previous character was a digit. -/
def pyIntDigits : List Char → Nat → Bool → Option Nat
  | [], acc, seen => if seen then some acc else none
  | c :: rest, acc, seen =>
    if '0' ≤ c && c ≤ '9' then pyIntDigits rest (acc * 10 + (c.toNat - 48)) true
    else if c == '_' then
      if seen then pyIntDigits rest acc false else none
    else none

/-- Model of Python `int(str)`: surrounding whitespace is stripped, an
optional sign is accepted, then a digit run (underscores only between
digits).  Anything else raises ValueError, modelled as `none`.  Non-ASCII
decimal digits, which CPython also accepts, are outside the model; no input
in the claims uses them. -/
def pyInt (s : String) : Option Int :=
  match (pyStrip s).data with
  | '+' :: rest => (pyIntDigits rest 0 false).map Int.ofNat
  | '-' :: rest => (pyIntDigits rest 0 false).map (fun n => -(Int.ofNat n))
  | cs => (pyIntDigits cs 0 false).map Int.ofNat

/-- Model of the source expression `x.replace("%", "")`: for the
one-character pattern `"%"`, Python `str.replace` removes every occurrence
of the character, anywhere in the string. -/
def pyRemovePct (s : String) : String := ⟨s.data.filter (fun c => c != '%')⟩

/-! Exact model of the floating-point values the program handles.  A `Frac`
is an unnormalised fraction with positive denominator; no gcd normalisation
is performed, so all operations reduce in the kernel. -/

/-- Unnormalised fraction `num / den`; every constructor application in this
development keeps `den` positive. -/
structure Frac where
  num : Int
  den : Int
deriving DecidableEq, Repr

/-- Value comparison of fractions (valid for positive denominators). -/
def fracLt (a b : Frac) : Bool := a.num * b.den < b.num * a.den

/-- Round a fraction to the nearest integer, ties to even -- the rounding
IEEE-754 arithmetic and correctly-rounded decimal formatting both use. -/
def roundHalfEven (q : Frac) : Int :=
  let f := Int.fdiv q.num q.den
  let r2 : Int := 2 * (q.num - f * q.den)
  if r2 < q.den then f
  else if q.den < r2 then f + 1
  else if f % 2 == 0 then f else f + 1

/-- Fuel-driven floor of the base-2 logarithm (fuel `n` suffices for input
`n`), written structurally so the kernel can evaluate it. -/
def log2Aux : Nat → Nat → Nat
  | 0, _ => 0
  | fuel + 1, n => if n ≤ 1 then 0 else log2Aux fuel (n / 2) + 1

/-- Floor of the base-2 logarithm of a natural number (0 for 0 and 1). -/
def log2floor (n : Nat) : Nat := log2Aux n n

/-- Ceiling of the base-2 logarithm of a natural number. -/
def clog2 (n : Nat) : Nat := if n ≤ 1 then 0 else log2floor (n - 1) + 1

/-- Largest `e : Int` with `2 ^ e ≤ q`, for a positive fraction `q`. -/
def ratLog2 (q : Frac) : Int :=
  if q.den ≤ q.num then Int.ofNat (log2floor (Int.fdiv q.num q.den).toNat)
  else -(Int.ofNat (clog2 (Int.fdiv (q.den + q.num - 1) q.num).toNat))

/-- Round a positive fraction to 53 significant bits, ties to even: the
IEEE-754 binary64 (Python float) value of the exact rational. -/
def doubleRoundPos (q : Frac) : Frac :=
  let e := ratLog2 q
  if e ≤ 52 then
    let s := (52 - e).toNat
    ⟨roundHalfEven ⟨q.num * Int.ofNat (2 ^ s), q.den⟩, Int.ofNat (2 ^ s)⟩
  else
    let s := (e - 52).toNat
    ⟨roundHalfEven ⟨q.num, q.den * Int.ofNat (2 ^ s)⟩ * Int.ofNat (2 ^ s), 1⟩

/-- The IEEE-754 binary64 value nearest to a rational (normal range; every
float in this program is normal, so overflow and subnormals do not arise). -/
def doubleRound (q : Frac) : Frac :=
  if q.num = 0 then ⟨0, 1⟩
  else if q.num < 0 then
    let p := doubleRoundPos ⟨-q.num, q.den⟩
    ⟨-p.num, p.den⟩
  else doubleRoundPos q

/-- Model of Python true division `a / b` of two exact integers: the
correctly rounded binary64 quotient.  Used for `volume / 100.0`. -/
def pyDiv (a b : Int) : Frac := doubleRound ⟨a, b⟩

/-- Model of Python `"%.1f" % v` for a float `v` given as its exact
fraction: the decimal string with one fractional digit, correctly rounded
(ties to even; a binary64 value is never a tie at one decimal digit). -/
def format1f (q : Frac) : String :=
  let n := roundHalfEven ⟨q.num * 10, q.den⟩
  if n < 0 then
    "-" ++ toString (Int.fdiv (-n) 10) ++ "." ++ toString ((-n) % 10)
  else
    toString (Int.fdiv n 10) ++ "." ++ toString (n % 10)

/-! The external world the handlers call into (psutil, dbus/login1,
gnome-screensaver, pulsectl, plocate, cv2).  The claims treat it as an
oracle: each field is the answer the corresponding library call would
return during the exchange under consideration. -/

/-- Oracle for the capability backends of src/client/main.py.  Percent
fields hold the exact value of the float the library returns. -/
structure Backend where
  /-- psutil.virtual_memory().percent -/
  virtual_memory_percent : Frac
  /-- psutil.disk_partitions() with psutil.disk_usage(mountpoint).percent -/
  disk_partitions : List (String × Frac)
  /-- psutil.sensors_battery().percent -/
  battery_percent : Frac
  /-- psutil.cpu_percent(interval=0.5) -/
  cpu_percent : Frac
  /-- the name attribute of each entry of psutil.process_iter -/
  process_names : List String
  /-- login1 CanPowerOff answered "yes" -/
  can_poweroff : Bool
  /-- login1 CanSuspend answered "yes" -/
  can_sleep : Bool
  /-- login1 CanReboot answered "yes" -/
  can_reboot : Bool
  /-- wall-clock seconds the locate worker takes before its future resolves -/
  locate_seconds : Frac
  /-- the paths plocate.locate yields (already capped by its limit=2) -/
  locate_hits : List String
  /-- pulsectl sink list -/
  sinks : List String
  /-- filename built for the take-a-picture command (HOME, Dropbox, timestamp) -/
  picture_filename : String
  /-- filename built for the screenshot command (HOME, Dropbox, timestamp) -/
  screenshot_filename : String
deriving DecidableEq, Repr

/-- The result string of WSClient.locate: the hits concatenated, each
followed by a single space. -/
def locateResults (b : Backend) : String :=
  b.locate_hits.foldl (fun acc p => acc ++ p ++ " ") ""

/-! The message dispatcher: WSClient.processQuery and WSClient.processCommand.
Side effects are recorded as an `Effect` list instead of being performed. -/

/-- A privileged action a command handler asks the operating system for. -/
inductive Action where
  | poweroff
  | sleep
  | reboot
  | lock
  | unlock
  | image (filename : String)
  | screenshot (filename : String)
deriving DecidableEq, Repr

/-- One backend invocation requested while processing a command. -/
inductive Effect where
  /-- ioloop.add_timeout(timedelta(seconds=delaySeconds), action) -/
  | deferred (delaySeconds : Nat) (act : Action)
  /-- ioloop.add_callback(action) -/
  | callbackNow (act : Action)
  /-- synchronous D-Bus call performed inline (cmd_lock / cmd_unlock) -/
  | dbusSessionCall (act : Action)
  /-- pulse.volume_set_all_chans(sink, fraction) for one sink -/
  | volumeSet (sink : String) (fraction : Frac)
deriving DecidableEq, Repr

/-- Return value of the command dispatcher: the response text together with
the backend invocations the handler requested. -/
structure CmdResult where
  msg : String
  effects : List Effect
deriving DecidableEq, Repr

/-- WSClient.processQuery (src/client/main.py lines 91-123), translated
branch by branch.  `x` is only read by the open query. -/
def processQuery (b : Backend) (value x : String) : String :=
  if value = "memory" then
    "Memory usage is " ++ format1f b.virtual_memory_percent ++ "%"
  else if value = "disk" then
    b.disk_partitions.foldl
      (fun acc p => acc ++ p.1 ++ " " ++ format1f p.2 ++ "% ") "Disk usage is "
  else if value = "battery" then
    "Battery is " ++ format1f b.battery_percent ++ "%"
  else if value = "processor" then
    "CPU usage is " ++ format1f b.cpu_percent ++ "%"
  else if value = "open" then
    let search := pyLower (pyStrip x)
    if b.process_names.any (fun nm => pyIn search (pyLower nm)) then
      "Yes, " ++ search ++ " is running"
    else
      "No, " ++ search ++ " is not running"
  else "Unknown query"

/-- WSClient.processCommand (src/client/main.py lines 125-206), translated
branch by branch.  The locate branch models tornado.gen.with_timeout with a
3.5 second budget: the TimeoutError branch is taken exactly when the locate
future needs more than 3.5 seconds, and the eventual result of the worker is
then discarded (only the string Timed out is returned).  `url` is fetched
from the frame but read by no implemented handler. -/
def processCommand (b : Backend) (command x url : String) : CmdResult :=
  if command = "power off" then
    if b.can_poweroff then ⟨"Powering off", [.deferred 2 .poweroff]⟩
    else ⟨"Cannot power off", []⟩
  else if command = "sleep" then
    if b.can_sleep then ⟨"Sleeping", [.deferred 2 .sleep]⟩
    else ⟨"Cannot sleep", []⟩
  else if command = "reboot" then
    if b.can_reboot then ⟨"Rebooting", [.deferred 2 .reboot]⟩
    else ⟨"Cannot reboot", []⟩
  else if command = "lock" then ⟨"Locking", [.dbusSessionCall .lock]⟩
  else if command = "unlock" then ⟨"Unlocking", [.dbusSessionCall .unlock]⟩
  else if command = "open" then ⟨"Not implemented yet", []⟩
  else if command = "close" then ⟨"Not implemented yet", []⟩
  else if command = "kill" then ⟨"Not implemented yet", []⟩
  else if command = "locate" then
    if x ≠ "" then
      if fracLt ⟨7, 2⟩ b.locate_seconds then ⟨"Timed out", []⟩
      else ⟨"Results: " ++ locateResults b, []⟩
    else ⟨"Nothing to search for", []⟩
  else if command = "fetch" then ⟨"Not implemented yet", []⟩
  else if command = "set volume" then
    match pyInt (pyRemovePct x) with
    | none => ⟨"Invalid percentage", []⟩
    | some volume =>
      ⟨"Volume set", b.sinks.map (fun snk => .volumeSet snk (pyDiv volume 100))⟩
  else if command = "stop" then ⟨"Not implemented yet", []⟩
  else if command = "take a picture" then
    ⟨"Taking picture " ++ b.picture_filename, [.callbackNow (.image b.picture_filename)]⟩
  else if command = "screenshot" then
    ⟨"Taking screenshot " ++ b.screenshot_filename,
     [.callbackNow (.screenshot b.screenshot_filename)]⟩
  else if command = "download" then ⟨"Not implemented yet", []⟩
  else if command = "start recording" then ⟨"Not implemented yet", []⟩
  else if command = "stop recording" then ⟨"Not implemented yet", []⟩
  else ⟨"Unknown command", []⟩

/-- Query names with a dedicated branch in processQuery. -/
def recognizedQueries : List String :=
  ["memory", "disk", "battery", "processor", "open"]

/-- Command names with a dedicated branch in processCommand. -/
def recognizedCommands : List String :=
  ["power off", "sleep", "reboot", "lock", "unlock", "open", "close", "kill",
   "locate", "fetch", "set volume", "stop", "take a picture", "screenshot",
   "download", "start recording", "stop recording"]

/-! The connection state machine: WSClient.connect, one iteration of the
read loop of WSClient.run, and WSClient.keep_alive. -/

/-- JSON values, as produced by json.loads.  `obj` holds the entries of the
resulting dict (duplicate keys already resolved by the decoder). -/
inductive Json where
  | null
  | boolVal (b : Bool)
  | intVal (n : Int)
  | strVal (s : String)
  | arr (elems : List Json)
  | obj (flds : List (String × Json))

/-- One received WebSocket frame: either text that json.loads rejects, or
the decoded JSON value. -/
inductive Frame where
  | invalid
  | val (j : Json)

/-- Dictionary lookup, msg[key]. -/
def lookupKey : List (String × Json) → String → Option Json
  | [], _ => none
  | (k, v) :: rest, key => if k == key then some v else lookupKey rest key

/-- Key-presence test on decoded dict entries. -/
def hasKey (flds : List (String × Json)) (k : String) : Bool :=
  (lookupKey flds k).isSome

/-- Does the Python value equal the given string (only str can). -/
def jsonStrEq (j : Json) (s : String) : Bool :=
  match j with
  | .strVal t => t == s
  | _ => false

/-- Model of the Python expression `key in msg` on a decoded JSON value:
key lookup on a dict, substring test on a str, element equality on a list,
and a TypeError (`none`) on the remaining types. -/
def pyContains (j : Json) (key : String) : Option Bool :=
  match j with
  | .obj flds => some (hasKey flds key)
  | .strVal s => some (pyIn key s)
  | .arr xs => some (xs.any (fun el => jsonStrEq el key))
  | _ => none

/-- Python truthiness of a decoded JSON value, for `if x:`. -/
def pyTruthy : Json → Bool
  | .null => false
  | .boolVal b => b
  | .intVal n => n != 0
  | .strVal s => s != ""
  | .arr xs => !xs.isEmpty
  | .obj fs => !fs.isEmpty

/-- The string content of a JSON value, or the empty string.  Used only for
the url command field, which no implemented handler reads. -/
def jsonStrOrEmpty : Json → String
  | .strVal s => s
  | _ => ""

/-- Mutable state of the WSClient object that the lifecycle touches: the
socket reference self.ws (a socket identifier, or none for Python None)
plus instrumentation counting websocket_connect successes and connect()
invocations, so the theorems can speak about sockets opened and reconnect
attempts. -/
structure ClientState where
  ws : Option Nat
  nextSocketId : Nat
  socketsOpened : Nat
  connectCalls : Nat
deriving DecidableEq, Repr

/-- WSClient.connect (lines 38-48): unconditionally attempts the WebSocket
handshake -- there is no state guard.  `ok` is the handshake outcome.  On
success the new socket is stored in self.ws (overwriting any previous
reference) and the read loop is started; on tornado HTTPError the error is
logged and self.ws is left as it was. -/
def connect (ok : Bool) (s : ClientState) : ClientState :=
  if ok then
    { s with
      ws := some s.nextSocketId
      nextSocketId := s.nextSocketId + 1
      socketsOpened := s.socketsOpened + 1
      connectCalls := s.connectCalls + 1 }
  else { s with connectCalls := s.connectCalls + 1 }

/-- WSClient.keep_alive (lines 86-89), run on the 60 second periodic
callback: calls connect() again if and only if self.ws is None. -/
def keep_alive (ok : Bool) (s : ClientState) : ClientState :=
  if s.ws = none then connect ok s else s

/-- What one iteration of the while loop in WSClient.run does after the
frame is handled. -/
inductive StepOutcome where
  /-- the loop continues; the response, if any, was written to the socket -/
  | next (response : Option String)
  /-- break: the loop ends normally -/
  | stop
  /-- an uncaught exception propagates out of the loop (only
  KeyboardInterrupt is caught), killing the read loop -/
  | exn
deriving DecidableEq, Repr

/-- The query arm of the read loop (lines 66-72): fetches
msg[query][value] and msg[query][x] and responds with processQuery.
Missing keys or subscripting a non-dict raise (KeyError / TypeError); a
non-str value falls through every comparison in processQuery, giving
Unknown query; a non-str x raises only when the open branch calls strip
on it. -/
def queryOutcome (b : Backend) (j : Json) : StepOutcome :=
  match j with
  | .obj flds =>
    match lookupKey flds "query" with
    | some (.obj q) =>
      match lookupKey q "value", lookupKey q "x" with
      | some (.strVal value), some (.strVal x) => .next (some (processQuery b value x))
      | some (.strVal value), some _ =>
        if value == "open" then .exn else .next (some (processQuery b value ""))
      | some _, some _ => .next (some "Unknown query")
      | _, _ => .exn
    | some _ => .exn
    | none => .exn
  | _ => .exn

/-- The command arm of the read loop (lines 73-80): fetches
msg[command][command], msg[command][x] and msg[command][url] and responds
with processCommand.  Missing keys or subscripting a non-dict raise; a
non-str command falls through every comparison, giving Unknown command; a
non-str x matters only to locate (truthiness, then a raising worker call)
and to set volume (replace raises). -/
def commandOutcome (b : Backend) (j : Json) : StepOutcome :=
  match j with
  | .obj flds =>
    match lookupKey flds "command" with
    | some cv =>
      match lookupKey flds "x", lookupKey flds "url" with
      | some xv, some uv =>
        match cv with
        | .strVal command =>
          match xv with
          | .strVal x => .next (some (processCommand b command x (jsonStrOrEmpty uv)).msg)
          | _ =>
            if command == "set volume" then .exn
            else if command == "locate" then
              if pyTruthy xv then .exn
              else .next (some "Nothing to search for")
            else .next (some (processCommand b command "" (jsonStrOrEmpty uv)).msg)
        | _ => .next (some "Unknown command")
      | _, _ => .exn
    | none => .exn
  | _ => .exn

/-- One iteration of the while loop of WSClient.run (lines 50-84).
`incoming` is what read_message returned: none for end-of-stream, or a
frame.  End-of-stream clears self.ws and breaks; text that json.loads
rejects raises json.JSONDecodeError, which is not caught (only
KeyboardInterrupt is), killing the loop; a frame with an error key is
logged and breaks the loop WITHOUT clearing self.ws; query and command
frames are answered; anything else is logged as an unknown message and the
loop continues with no response. -/
def runStep (b : Backend) (s : ClientState) (incoming : Option Frame) :
    ClientState × StepOutcome :=
  match incoming with
  | none => ({ s with ws := none }, .stop)
  | some .invalid => (s, .exn)
  | some (.val j) =>
    match pyContains j "error" with
    | none => (s, .exn)
    | some true => (s, .stop)
    | some false =>
      match pyContains j "query" with
      | none => (s, .exn)
      | some true => (s, queryOutcome b j)
      | some false =>
        match pyContains j "command" with
        | none => (s, .exn)
        | some true => (s, commandOutcome b j)
        | some false => (s, .next none)

/-! Fixtures: a concrete backend and client state used by the witnesses and
counterexamples below. -/

/-- A concrete backend oracle: battery at the float value of 87.35 percent,
one audio sink, two running processes, a locate call resolving in 1 second
with two hits, power-off and reboot not permitted, suspend permitted. -/
def testBackend : Backend where
  virtual_memory_percent := ⟨421, 10⟩
  disk_partitions := [("/", ⟨667, 10⟩)]
  battery_percent := doubleRound ⟨1747, 20⟩
  cpu_percent := ⟨125, 10⟩
  process_names := ["firefox", "Xorg"]
  can_poweroff := false
  can_sleep := true
  can_reboot := false
  locate_seconds := ⟨1, 1⟩
  locate_hits := ["/home/u/a.txt", "/home/u/b.txt"]
  sinks := ["alsa_output.pci"]
  picture_filename := "/home/u/Dropbox/pic.png"
  screenshot_filename := "/home/u/Dropbox/shot.png"

/-- The test backend with a locate call that needs 4 seconds, exceeding the
3.5 second budget. -/
def slowBackend : Backend := { testBackend with locate_seconds := ⟨4, 1⟩ }

/-- The test backend with every login1 capability check answering yes. -/
def allowBackend : Backend :=
  { testBackend with can_poweroff := true, can_sleep := true, can_reboot := true }

/-- The test backend with every login1 capability check answering no. -/
def denyBackend : Backend :=
  { testBackend with can_poweroff := false, can_sleep := false, can_reboot := false }

/-- A client state holding an open socket (identifier 0), as after one
successful connect. -/
def connectedState : ClientState where
  ws := some 0
  nextSocketId := 1
  socketsOpened := 1
  connectCalls := 1

/-- Dict entries of a server error frame. -/
def errFlds : List (String × Json) := [("error", Json.strVal "bad token")]

/-- The binary64 (Python float) value of 0.55, which is what the expression
55 / 100.0 evaluates to. -/
def float055 : Frac := doubleRound ⟨11, 20⟩

/-- The stripping that claim C4 describes, stated from the words of the
spec for comparison with the source behaviour: remove one trailing percent
sign and nothing else. -/
def stripOneTrailingPct (s : String) : String :=
  match s.data.reverse with
  | '%' :: rest => ⟨rest.reverse⟩
  | _ => s

/-! Shared helper lemmas. -/

/-- The empty needle is a substring of every character list. -/
theorem containsChars_nil (l : List Char) : containsChars [] l = true := by
  induction l <;> simp [containsChars, isPrefixChars, *]

/-- The empty string is a Python substring of every string. -/
theorem pyIn_empty (s : String) : pyIn "" s = true := by
  have h : ("" : String).data = [] := rfl
  simp [pyIn, h, containsChars_nil]

/-- The normalised form of the empty open-query argument matches every
process name. -/
theorem pyIn_empty_search (s : String) : pyIn (pyLower (pyStrip "")) s = true := by
  have h : pyLower (pyStrip "") = "" := rfl
  rw [h]; exact pyIn_empty s

/-- C1, counterexample: after an ErrorNotice frame the read loop does break,
but self.ws is left pointing at the socket, so the state is NOT treated as
Disconnected and the next keep-alive tick does not call connect() (the state
is unchanged, in particular connectCalls does not grow).  This refutes the
claim that the connection is then treated as Disconnected and reconnected. -/
theorem errorNotice_reconnect_cex :
    (runStep testBackend connectedState (some (Frame.val (Json.obj errFlds)))).2
      = StepOutcome.stop ∧
    (runStep testBackend connectedState (some (Frame.val (Json.obj errFlds)))).1.ws
      = some 0 ∧
    keep_alive true
        (runStep testBackend connectedState (some (Frame.val (Json.obj errFlds)))).1
      = (runStep testBackend connectedState (some (Frame.val (Json.obj errFlds)))).1 := by
  decide

/-- C1, amended: when the agent receives an ErrorNotice frame (a JSON object
containing an error key), the current read loop terminates, but the socket
reference is not cleared, so the connection is still treated as connected
and a subsequent keep-alive tick does not re-invoke connect(). -/
theorem errorNotice_breaks_loop_keeps_socket
    (b : Backend) (s : ClientState) (flds : List (String × Json))
    (h : hasKey flds "error" = true) :
    runStep b s (some (Frame.val (Json.obj flds))) = (s, StepOutcome.stop) ∧
    (∀ ok : Bool, s.ws ≠ none → keep_alive ok s = s) := by
  constructor
  · simp [runStep, pyContains, h]
  · intro ok hw
    simp [keep_alive, hw]

/-- Witness for C1 at the concrete error frame and a connected state. -/
theorem errorNotice_breaks_loop_keeps_socket_witness :
    runStep testBackend connectedState (some (Frame.val (Json.obj errFlds)))
      = (connectedState, StepOutcome.stop) ∧
    keep_alive true connectedState = connectedState :=
  ⟨(errorNotice_breaks_loop_keeps_socket testBackend connectedState errFlds (by decide)).1,
   (errorNotice_breaks_loop_keeps_socket testBackend connectedState errFlds (by decide)).2
      true (by decide)⟩

/-- C2, counterexample: connect() has no state guard.  Called while the
state already holds socket 0, it performs the handshake anyway, opens a
second socket and overwrites self.ws with it.  This refutes the claim that
calling connect() while Connected is a no-op guarded by a state check. -/
theorem connect_unguarded_cex :
    connectedState.ws = some 0 ∧
    (connect true connectedState).socketsOpened = connectedState.socketsOpened + 1 ∧
    (connect true connectedState).ws = some 1 := by
  decide

/-- C2, amended: the no-op guard lives in keep_alive, not in connect():
keep_alive leaves the state untouched whenever self.ws is set, while
connect() itself unconditionally opens a new socket; after a read returns
end-of-stream the state becomes Disconnected (self.ws is None) and the next
keep-alive tick invokes connect() exactly once. -/
theorem reconnect_guard_in_keep_alive (b : Backend) (s : ClientState) (ok : Bool) :
    (s.ws ≠ none → keep_alive ok s = s) ∧
    (runStep b s none).1.ws = none ∧
    (keep_alive ok (runStep b s none).1).connectCalls
      = (runStep b s none).1.connectCalls + 1 := by
  refine ⟨fun hw => by simp [keep_alive, hw], ?_, ?_⟩
  · simp [runStep]
  · cases ok <;> simp [runStep, keep_alive, connect]

/-- Witness for C2 at a connected state. -/
theorem reconnect_guard_in_keep_alive_witness :
    keep_alive true connectedState = connectedState ∧
    (runStep testBackend connectedState none).1.ws = none ∧
    (keep_alive true (runStep testBackend connectedState none).1).connectCalls
      = (runStep testBackend connectedState none).1.connectCalls + 1 :=
  ⟨(reconnect_guard_in_keep_alive testBackend connectedState true).1 (by decide),
   (reconnect_guard_in_keep_alive testBackend connectedState true).2.1,
   (reconnect_guard_in_keep_alive testBackend connectedState true).2.2⟩

/-- C3, counterexample: a frame that is not valid JSON makes json.loads
raise, and the except clause of WSClient.run catches only
KeyboardInterrupt, so the exception escapes and kills the read loop.  This
refutes the clause that decoding an inbound frame never produces a failure
that kills the read loop. -/
theorem invalid_json_kills_loop_cex :
    runStep testBackend connectedState (some Frame.invalid)
      = (connectedState, StepOutcome.exn) := by
  decide

/-- C3, amended: for every received frame that is a valid JSON object with
none of the keys error, query or command, the agent logs a warning, sends
no response and the read loop continues; but a frame that is not valid JSON
raises an uncaught exception that kills the read loop. -/
theorem unrecognized_object_continues :
    (∀ (b : Backend) (s : ClientState) (flds : List (String × Json)),
       hasKey flds "error" = false → hasKey flds "query" = false →
       hasKey flds "command" = false →
       runStep b s (some (Frame.val (Json.obj flds))) = (s, StepOutcome.next none)) ∧
    (∀ (b : Backend) (s : ClientState),
       runStep b s (some Frame.invalid) = (s, StepOutcome.exn)) :=
  ⟨fun b s flds h1 h2 h3 => by simp [runStep, pyContains, h1, h2, h3],
   fun b s => rfl⟩

/-- Witness for C3 at a concrete object frame of unknown shape. -/
theorem unrecognized_object_continues_witness :
    runStep testBackend connectedState
        (some (Frame.val (Json.obj [("note", Json.strVal "hi")])))
      = (connectedState, StepOutcome.next none) :=
  unrecognized_object_continues.1 testBackend connectedState
    [("note", Json.strVal "hi")] (by decide) (by decide) (by decide)

/-- C4, counterexample: the set-volume handler removes every percent sign
(x.replace), not one trailing one.  The argument 5%5 is non-numeric after
stripping one trailing percent sign, yet the code answers Volume set and
does invoke the audio backend.  This refutes the stripping the claim
describes. -/
theorem volume_strip_all_cex :
    pyInt (stripOneTrailingPct "5%5") = none ∧
    (processCommand testBackend "set volume" "5%5" "").msg = "Volume set" ∧
    (processCommand testBackend "set volume" "5%5" "").effects ≠ [] := by
  decide

/-- C4, amended: the set-volume argument is parsed as an integer percentage
after removing every percent sign anywhere in the string; for every
argument that is non-numeric after that removal, the response is exactly
Invalid percentage and the audio backend is never invoked. -/
theorem volume_invalid_percentage (b : Backend) (x url : String)
    (h : pyInt (pyRemovePct x) = none) :
    processCommand b "set volume" x url = ⟨"Invalid percentage", []⟩ := by
  simp [processCommand, h]

/-- Witness for C4 at the non-numeric argument abc. -/
theorem volume_invalid_percentage_witness :
    processCommand testBackend "set volume" "abc" "" = ⟨"Invalid percentage", []⟩ :=
  volume_invalid_percentage testBackend "abc" "" (by decide)

/-- C5: for the battery query with the backend reporting a battery level of
87.35 percent (the float nearest 87.35), the response string is exactly
Battery is 87.3% -- one decimal place, correctly rounded. -/
theorem battery_one_decimal (b : Backend) (x : String)
    (h : b.battery_percent = doubleRound ⟨1747, 20⟩) :
    processQuery b "battery" x = "Battery is 87.3%" := by
  simp [processQuery, h]
  decide

/-- Witness for C5 at the concrete backend. -/
theorem battery_one_decimal_witness :
    processQuery testBackend "battery" "" = "Battery is 87.3%" :=
  battery_one_decimal testBackend "" rfl

/-- C6: for the locate command with a non-empty pattern, if the search does
not return within the 3.5 second budget the response is exactly Timed out
(the eventual result of the worker is discarded); if it returns within the
budget the response carries its real result. -/
theorem locate_timeout (b : Backend) (x url : String) (hx : x ≠ "") :
    (fracLt ⟨7, 2⟩ b.locate_seconds = true →
       processCommand b "locate" x url = ⟨"Timed out", []⟩) ∧
    (fracLt ⟨7, 2⟩ b.locate_seconds = false →
       processCommand b "locate" x url = ⟨"Results: " ++ locateResults b, []⟩) := by
  constructor <;> intro h <;> simp [processCommand, hx, h]

/-- Witness for C6: a 4 second search times out, a 1 second search answers
with its hits. -/
theorem locate_timeout_witness :
    processCommand slowBackend "locate" "report.pdf" "" = ⟨"Timed out", []⟩ ∧
    processCommand testBackend "locate" "report.pdf" ""
      = ⟨"Results: " ++ locateResults testBackend, []⟩ :=
  ⟨(locate_timeout slowBackend "report.pdf" "" (by decide)).1 (by decide),
   (locate_timeout testBackend "report.pdf" "" (by decide)).2 (by decide)⟩

/-- C7: each of the commands power off, sleep and reboot first runs its
capability check; when the check reports false the response is exactly
Cannot power off / Cannot sleep / Cannot reboot and no action call is made,
and when it reports true the action is scheduled (two seconds deferred, as
the code does) and the confirmation string is returned. -/
theorem capability_gates (b : Backend) (x url : String) :
    (b.can_poweroff = false →
       processCommand b "power off" x url = ⟨"Cannot power off", []⟩) ∧
    (b.can_poweroff = true →
       processCommand b "power off" x url
         = ⟨"Powering off", [Effect.deferred 2 Action.poweroff]⟩) ∧
    (b.can_sleep = false →
       processCommand b "sleep" x url = ⟨"Cannot sleep", []⟩) ∧
    (b.can_sleep = true →
       processCommand b "sleep" x url = ⟨"Sleeping", [Effect.deferred 2 Action.sleep]⟩) ∧
    (b.can_reboot = false →
       processCommand b "reboot" x url = ⟨"Cannot reboot", []⟩) ∧
    (b.can_reboot = true →
       processCommand b "reboot" x url
         = ⟨"Rebooting", [Effect.deferred 2 Action.reboot]⟩) := by
  refine ⟨?_, ?_, ?_, ?_, ?_, ?_⟩ <;> intro h <;> simp [processCommand, h]

/-- Witness for C7: all six cases at concrete allowing and denying
backends. -/
theorem capability_gates_witness :
    processCommand denyBackend "power off" "" "" = ⟨"Cannot power off", []⟩ ∧
    processCommand allowBackend "power off" "" ""
      = ⟨"Powering off", [Effect.deferred 2 Action.poweroff]⟩ ∧
    processCommand denyBackend "sleep" "" "" = ⟨"Cannot sleep", []⟩ ∧
    processCommand allowBackend "sleep" "" ""
      = ⟨"Sleeping", [Effect.deferred 2 Action.sleep]⟩ ∧
    processCommand denyBackend "reboot" "" "" = ⟨"Cannot reboot", []⟩ ∧
    processCommand allowBackend "reboot" "" ""
      = ⟨"Rebooting", [Effect.deferred 2 Action.reboot]⟩ :=
  ⟨(capability_gates denyBackend "" "").1 (by decide),
   (capability_gates allowBackend "" "").2.1 (by decide),
   (capability_gates denyBackend "" "").2.2.1 (by decide),
   (capability_gates allowBackend "" "").2.2.2.1 (by decide),
   (capability_gates denyBackend "" "").2.2.2.2.1 (by decide),
   (capability_gates allowBackend "" "").2.2.2.2.2 (by decide)⟩

/-- C8: for the set volume command with argument 55%, the response is
exactly Volume set and the backend receives the volume fraction 0.55 (the
float value of 55 / 100.0) for every audio sink. -/
theorem set_volume_all_sinks (b : Backend) (url : String) :
    processCommand b "set volume" "55%" url
      = ⟨"Volume set", b.sinks.map (fun snk => Effect.volumeSet snk float055)⟩ := by
  have h1 : pyInt (pyRemovePct "55%") = some 55 := by decide
  have h2 : pyDiv 55 100 = float055 := by decide
  simp [processCommand, h1, h2]

/-- C9: for every command name outside the recognized command set the
response is exactly Unknown command with no backend invocation, and for
every query name outside the recognized query set the response is exactly
Unknown query. -/
theorem unknown_names :
    (∀ (b : Backend) (value x : String), value ∉ recognizedQueries →
       processQuery b value x = "Unknown query") ∧
    (∀ (b : Backend) (command x url : String), command ∉ recognizedCommands →
       processCommand b command x url = ⟨"Unknown command", []⟩) := by
  constructor
  · intro b value x h
    simp [recognizedQueries] at h
    obtain ⟨h1, h2, h3, h4, h5⟩ := h
    simp [processQuery, h1, h2, h3, h4, h5]
  · intro b command x url h
    simp [recognizedCommands] at h
    obtain ⟨g1, g2, g3, g4, g5, g6, g7, g8, g9, g10, g11, g12, g13, g14, g15, g16, g17⟩ := h
    simp [processCommand, g1, g2, g3, g4, g5, g6, g7, g8, g9, g10, g11, g12, g13,
          g14, g15, g16, g17]

/-- Witness for C9 at an unknown query name and an unknown command name. -/
theorem unknown_names_witness :
    processQuery testBackend "uptime" "" = "Unknown query" ∧
    processCommand testBackend "frobnicate" "" "" = ⟨"Unknown command", []⟩ :=
  ⟨unknown_names.1 testBackend "uptime" "" (by decide),
   unknown_names.2 testBackend "frobnicate" "" "" (by decide)⟩

/-- C10: the open query strips surrounding whitespace from its argument and
lowercases it, tests it as a case-insensitive substring of the process
names, and echoes the normalized term in the response; with an empty
argument it answers Yes,  is running whenever at least one process exists. -/
theorem open_query_substring :
    (∀ (b : Backend) (x : String),
       (b.process_names.any (fun nm => pyIn (pyLower (pyStrip x)) (pyLower nm)) = true →
          processQuery b "open" x = "Yes, " ++ pyLower (pyStrip x) ++ " is running") ∧
       (b.process_names.any (fun nm => pyIn (pyLower (pyStrip x)) (pyLower nm)) = false →
          processQuery b "open" x = "No, " ++ pyLower (pyStrip x) ++ " is not running")) ∧
    (∀ b : Backend, b.process_names ≠ [] →
       processQuery b "open" "" = "Yes,  is running") := by
  have main : ∀ (b : Backend) (x : String),
      (b.process_names.any (fun nm => pyIn (pyLower (pyStrip x)) (pyLower nm)) = true →
         processQuery b "open" x = "Yes, " ++ pyLower (pyStrip x) ++ " is running") ∧
      (b.process_names.any (fun nm => pyIn (pyLower (pyStrip x)) (pyLower nm)) = false →
         processQuery b "open" x = "No, " ++ pyLower (pyStrip x) ++ " is not running") := by
    intro b x
    constructor <;> intro h <;> simp [processQuery, h]
  refine ⟨main, fun b hne => ?_⟩
  have hany : b.process_names.any
      (fun nm => pyIn (pyLower (pyStrip "")) (pyLower nm)) = true := by
    cases hl : b.process_names with
    | nil => exact absurd hl hne
    | cons nm t => simp [pyIn_empty_search]
  exact ((main b "").1 hany).trans (by decide)

/-- Witness for C10: a padded mixed-case argument matches, and the empty
argument matches because a process exists. -/
theorem open_query_substring_witness :
    processQuery testBackend "open" " FireFOX " = "Yes, firefox is running" ∧
    processQuery testBackend "open" "" = "Yes,  is running" :=
  ⟨((open_query_substring.1 testBackend " FireFOX ").1 (by decide)).trans (by decide),
   open_query_substring.2 testBackend (by decide)⟩

end LinuxControl
